import Mathlib

/-!
Shallow embedding of `cinder/volume/drivers/vmware/read_write_util.py`.

The module provides:
* `GlanceFileRead` — adapter from a lazy chunk iterator to a `read` call;
* `VMwareHTTPFile` — base class holding an EOF flag and a transport handle,
  with cookie-header building, IPv6-aware SOAP-URL building and a
  suppressing `close`;
* `VMwareHTTPWriteFile` / `VMwareHTTPReadFile` — PUT / GET streams,
  with URL construction (the write path passes the file path verbatim,
  the read path runs it through `urllib.pathname2url`).

Python state is made explicit: iterators become lists, mutable objects
become records threaded through functions, exceptions become `Except`
values, and a `try/except Exception: log` block becomes a `match` that
maps the error branch back to a normal result.
-/

set_option autoImplicit false
set_option linter.unusedVariables false

namespace ReadWriteUtil

/-- ASCII lowercasing of one character, as Python 2 `str.lower` does on
byte strings. -/
def lowerChar (c : Char) : Char :=
  if 'A' ≤ c ∧ c ≤ 'Z' then Char.ofNat (c.toNat + 32) else c

/-- ASCII lowercasing of a byte string (`name.lower()`). -/
def pyLower (s : String) : String :=
  String.mk (s.toList.map lowerChar)

/-- Fixed user agent string sent on every request. -/
def USER_AGENT : String := "OpenStack-ESX-Adapter"

/-- Fixed internal chunk size used by `VMwareHTTPReadFile.read`. -/
def READ_CHUNKSIZE : Nat := 65536

/-- Python exception values relevant to this module. -/
inductive PyErr where
  | unboundLocalError
  | responseNotReady
  | httpError
  | closeError
  | genericError
  deriving DecidableEq, Repr

/-- A Python value that is either a string or an integer; `headers.get`
with an integer default can produce either. -/
inductive PyVal where
  | str : String → PyVal
  | int : Int → PyVal
  deriving DecidableEq, Repr

/-! ### GlanceFileRead (the chunk-iterator adapter) -/

/-- `GlanceFileRead.read`: `self.iter.next()` on the remaining items,
returning `""` when `StopIteration` is caught.  The `chunk_size`
argument is ignored, as in the source.  The state is the list of
items the underlying iterator has not yet produced. -/
def GlanceFileRead.read (chunk_size : Nat) :
    List String → String × List String
  | [] => ("", [])
  | c :: cs => (c, cs)

/-- Run a sequence of `GlanceFileRead.read` calls, one per requested
chunk size, collecting the returned items. -/
def GlanceFileRead.runReads : List Nat → List String → List String
  | [], _ => []
  | n :: ns, st =>
    let r := GlanceFileRead.read n st
    r.1 :: GlanceFileRead.runReads ns r.2

/-! ### VMwareHTTPFile base state: EOF flag and transport handle -/

/-- The mutable state of a `VMwareHTTPFile`: the EOF flag and the
transport handle (`self.file_handle`), generic in the handle type. -/
structure VMwareHTTPFile (H : Type) where
  eof : Bool
  file_handle : H
  deriving DecidableEq, Repr

/-- `VMwareHTTPFile.__init__`: `self.eof = False; self.file_handle = file_handle`. -/
def VMwareHTTPFile.init {H : Type} (file_handle : H) : VMwareHTTPFile H :=
  { eof := false, file_handle := file_handle }

/-- `set_eof`: `self.eof = eof`. -/
def VMwareHTTPFile.set_eof {H : Type} (s : VMwareHTTPFile H) (eof : Bool) :
    VMwareHTTPFile H :=
  { s with eof := eof }

/-- `get_eof`: `return self.eof`. -/
def VMwareHTTPFile.get_eof {H : Type} (s : VMwareHTTPFile H) : Bool :=
  s.eof

/-- Apply a sequence of `set_eof` calls in order. -/
def applyEofOps {H : Type} (s : VMwareHTTPFile H) : List Bool → VMwareHTTPFile H
  | [] => s
  | b :: bs => applyEofOps (s.set_eof b) bs

/-! ### Cookie header building -/

/-- A cookie as seen by `_build_vim_cookie_headers`: a name and a value. -/
structure Cookie where
  name : String
  value : String
  deriving DecidableEq, Repr

/-- The loop body of `_build_vim_cookie_headers`: the `for`/`break`
combination overwrites the accumulator with the first cookie and stops. -/
def buildCookieLoop (cookie_header : String) :
    List Cookie → String
  | [] => cookie_header
  | c :: _ => c.name ++ "=" ++ c.value

/-- `_build_vim_cookie_headers`: start from `""` and run the loop. -/
def build_vim_cookie_headers (vim_cookies : List Cookie) : String :=
  buildCookieLoop "" vim_cookies

/-! ### headers.get and get_size -/

/-- `headers.get(name, default)` on an rfc822 message: case-insensitive
lookup of the first matching header, returning its string value, or the
default (which may be an integer) when absent. -/
def headersGet (headers : List (String × String)) (name : String)
    (default : PyVal) : PyVal :=
  match headers.find? (fun kv => pyLower kv.1 == pyLower name) with
  | some kv => PyVal.str kv.2
  | none => default

/-- `VMwareHTTPReadFile.get_size`:
`return self.file_handle.headers.get('Content-Length', -1)`. -/
def get_size (headers : List (String × String)) : PyVal :=
  headersGet headers "Content-Length" (PyVal.int (-1))

/-! ### VMwareHTTPReadFile.read -/

/-- `file_handle.read(k)` on the response body: return the next `k`
bytes (fewer at end of stream) and the advanced stream. -/
def fileHandleRead (k : Nat) (buf : List Nat) : List Nat × List Nat :=
  (buf.take k, buf.drop k)

/-- `VMwareHTTPReadFile.read`: the passed `chunk_size` is ignored and
`READ_CHUNKSIZE` is used instead. -/
def VMwareHTTPReadFile.read (chunk_size : Nat) (buf : List Nat) :
    List Nat × List Nat :=
  fileHandleRead READ_CHUNKSIZE buf

/-! ### urllib quoting -/

/-- Characters `urllib` never escapes (`always_safe`): letters, digits,
`_`, `.` and `-`. -/
def isAlwaysSafe (c : Char) : Bool :=
  c.isAlpha || c.isDigit || c == '_' || c == '.' || c == '-'

/-- Uppercase hexadecimal digit, for `%XX` escapes. -/
def hexDigitChar (n : Nat) : Char :=
  if n < 10 then Char.ofNat (48 + n) else Char.ofNat (55 + n)

/-- One character under `urllib.quote`: kept when safe, otherwise the
three-character escape `%XX`. -/
def quoteChar (safe : List Char) (c : Char) : List Char :=
  if isAlwaysSafe c || safe.contains c then [c]
  else ['%', hexDigitChar (c.toNat / 16 % 16), hexDigitChar (c.toNat % 16)]

/-- `urllib.quote(s, safe)`. -/
def quote (safe : String) (s : String) : String :=
  String.mk ((s.data.map (quoteChar safe.data)).flatten)

/-- `urllib.pathname2url` on posix: `quote` with `/` kept safe. -/
def pathname2url (file_path : String) : String :=
  quote "/" file_path

/-- One character under `urllib.quote_plus`: a space becomes `+`,
everything else is quoted with an empty safe set. -/
def quotePlusChar (c : Char) : List Char :=
  if c == ' ' then ['+'] else quoteChar [] c

/-- `urllib.quote_plus(s)`. -/
def quote_plus (s : String) : String :=
  String.mk ((s.data.map quotePlusChar).flatten)

/-- `urllib.urlencode` on the literal
`dcPath: data_center_name, dsName: datastore_name` parameter dict. -/
def urlencode (data_center_name datastore_name : String) : String :=
  "dcPath=" ++ quote_plus data_center_name ++ "&dsName="
    ++ quote_plus datastore_name

/-! ### SOAP URL building and IPv6 handling -/

/-- `_is_valid_ipv6`: call the external `netaddr.valid_ipv6` (modelled
as a fallible oracle passed in as a parameter) and map any raised
exception to `False`. -/
def is_valid_ipv6 (valid_ipv6 : String → Except PyErr Bool)
    (address : String) : Bool :=
  match valid_ipv6 address with
  | Except.ok b => b
  | Except.error _ => false

/-- `get_soap_url`: bracket the host exactly when `_is_valid_ipv6`
returns true. -/
def get_soap_url (valid_ipv6 : String → Except PyErr Bool)
    (scheme host : String) : String :=
  if is_valid_ipv6 valid_ipv6 host then scheme ++ "://[" ++ host ++ "]"
  else scheme ++ "://" ++ host

/-- A concrete stand-in for `netaddr.valid_ipv6` used to instantiate
theorems: recognises one IPv6 literal, fails on one host, and answers
`False` elsewhere. -/
def sampleValidator : String → Except PyErr Bool := fun address =>
  if address == "::1" then Except.ok true
  else if address == "badhost" then Except.error PyErr.genericError
  else Except.ok false

/-! ### Stream-constructor URL building -/

/-- The `base_url` built by `VMwareHTTPWriteFile.__init__`: the file
path is used verbatim, then the query string is appended. -/
def mkWriteBaseUrl (valid_ipv6 : String → Except PyErr Bool)
    (scheme host file_path data_center_name datastore_name : String) :
    String :=
  let soap_url := get_soap_url valid_ipv6 scheme host
  let base_url := soap_url ++ "/folder/" ++ file_path
  base_url ++ "?" ++ urlencode data_center_name datastore_name

/-- The `base_url` built by `VMwareHTTPReadFile.__init__`: the file
path goes through `urllib.pathname2url` first. -/
def mkReadBaseUrl (valid_ipv6 : String → Except PyErr Bool)
    (scheme host file_path data_center_name datastore_name : String) :
    String :=
  let soap_url := get_soap_url valid_ipv6 scheme host
  let base_url := soap_url ++ "/folder/" ++ pathname2url file_path
  base_url ++ "?" ++ urlencode data_center_name datastore_name

/-- Characters Python 2 `urlparse` accepts in a scheme. -/
def schemeChars (c : Char) : Bool :=
  c.isAlpha || c.isDigit || c == '+' || c == '-' || c == '.'

/-- The scheme component extracted by `urlparse.urlparse`: the
(lowercased) non-empty run before the first `:`, provided it consists
of scheme characters; otherwise the empty string. -/
def urlparseScheme (url : String) : String :=
  let pre := url.data.takeWhile (fun c => c != ':')
  if pre.length < url.data.length ∧ pre ≠ [] ∧ pre.all schemeChars then
    pyLower (String.mk pre)
  else ""

/-- What a stream constructor does before any transport activity:
either raise some Python exception, or proceed to hand the URL to the
transport layer. -/
inductive ConstructOutcome where
  | raisesBeforeNetwork : PyErr → ConstructOutcome
  | opensNetwork : String → ConstructOutcome
  deriving DecidableEq, Repr

/-- `VMwareHTTPWriteFile.__init__` up to the point of first transport
use: the `if scheme == 'http' / elif scheme == 'https'` chain has no
`else`, so for any other parsed scheme the local `conn` stays unbound
and the following `conn.putrequest` raises `UnboundLocalError`. -/
def writeConstruct (valid_ipv6 : String → Except PyErr Bool)
    (scheme host file_path data_center_name datastore_name : String) :
    ConstructOutcome :=
  let base_url := mkWriteBaseUrl valid_ipv6 scheme host file_path
    data_center_name datastore_name
  let parsed := urlparseScheme base_url
  if parsed = "http" then ConstructOutcome.opensNetwork base_url
  else if parsed = "https" then ConstructOutcome.opensNetwork base_url
  else ConstructOutcome.raisesBeforeNetwork PyErr.unboundLocalError

/-- `VMwareHTTPReadFile.__init__` up to the point of first transport
use: no scheme check at all — the request is handed unconditionally to
`urllib2.urlopen`. -/
def readConstruct (valid_ipv6 : String → Except PyErr Bool)
    (scheme host file_path data_center_name datastore_name : String) :
    ConstructOutcome :=
  ConstructOutcome.opensNetwork
    (mkReadBaseUrl valid_ipv6 scheme host file_path
      data_center_name datastore_name)

/-! ### close() state machines -/

/-- A transport handle as `VMwareHTTPFile.close` sees it: a closed
flag, and a flag saying whether the underlying `close()` call raises. -/
structure PyFileHandle where
  closed : Bool
  failOnClose : Bool
  deriving DecidableEq, Repr

/-- `file_handle.close()`: raises when the handle is broken, otherwise
marks the handle closed (closing an already-closed handle is a no-op). -/
def PyFileHandle.closeRaw (h : PyFileHandle) : Except PyErr PyFileHandle :=
  if h.failOnClose then Except.error PyErr.closeError
  else Except.ok { h with closed := true }

/-- `VMwareHTTPFile.close`: `try: self.file_handle.close() except
Exception as exc: LOG.exception(exc)` — every exception is caught, so
the call always returns normally. -/
def VMwareHTTPFile.close (s : VMwareHTTPFile PyFileHandle) :
    Except PyErr (VMwareHTTPFile PyFileHandle) :=
  Except.ok (match s.file_handle.closeRaw with
    | Except.ok h => { s with file_handle := h }
    | Except.error _ => s)

/-- An `httplib` connection as `VMwareHTTPWriteFile.close` sees it:
whether the response was already read, whether the socket is closed,
and whether `getresponse` / `close` raise. -/
structure HTTPConnectionState where
  responseRead : Bool
  closed : Bool
  failOnGetResponse : Bool
  failOnClose : Bool
  deriving DecidableEq, Repr

/-- `conn.getresponse()`: raises `ResponseNotReady` when the connection
is closed or the response was already consumed, raises a transport
error when the exchange failed, and otherwise consumes the response. -/
def HTTPConnectionState.getresponse (c : HTTPConnectionState) :
    Except PyErr HTTPConnectionState :=
  if c.closed || c.responseRead then Except.error PyErr.responseNotReady
  else if c.failOnGetResponse then Except.error PyErr.httpError
  else Except.ok { c with responseRead := true }

/-- `conn.close()`: raises when the connection is broken, otherwise
marks it closed. -/
def HTTPConnectionState.closeRaw (c : HTTPConnectionState) :
    Except PyErr HTTPConnectionState :=
  if c.failOnClose then Except.error PyErr.closeError
  else Except.ok { c with closed := true }

/-- `VMwareHTTPWriteFile.close`: `try: self.conn.getresponse() except
Exception: LOG.debug(...)`, then the base-class `close` on the same
connection object; both failure points are caught and logged. -/
def writeFileClose (s : VMwareHTTPFile HTTPConnectionState) :
    Except PyErr (VMwareHTTPFile HTTPConnectionState) :=
  let s1 := match s.file_handle.getresponse with
    | Except.ok c => { s with file_handle := c }
    | Except.error _ => s
  Except.ok (match s1.file_handle.closeRaw with
    | Except.ok c => { s1 with file_handle := c }
    | Except.error _ => s1)

end ReadWriteUtil

namespace ReadWriteUtil

/-! ### Helper lemmas -/

theorem getLastD_cons (b : Bool) (bs : List Bool) (d : Bool) :
    ((b :: bs).getLast?).getD d = (bs.getLast?).getD b := by
  induction bs generalizing b d with
  | nil => rfl
  | cons b' bs' ih => rw [List.getLast?_cons_cons, ih, ih]

theorem applyEofOps_get_eof {H : Type} (s : VMwareHTTPFile H)
    (ops : List Bool) :
    (applyEofOps s ops).get_eof = (ops.getLast?).getD s.get_eof := by
  induction ops generalizing s with
  | nil => rfl
  | cons b bs ih =>
    rw [applyEofOps, ih, getLastD_cons]
    rfl

theorem takeWhile_all_append (p : Char → Bool) (l1 : List Char) (a : Char)
    (l2 : List Char) (h : ∀ c ∈ l1, p c = true) (ha : p a = false) :
    (l1 ++ a :: l2).takeWhile p = l1 := by
  induction l1 with
  | nil => simp [List.takeWhile_cons, ha]
  | cons c cs ih =>
    have hc : p c = true := h c (by simp)
    simp only [List.cons_append, List.takeWhile_cons, hc, if_true]
    rw [ih fun c' hc' => h c' (by simp [hc'])]

theorem data_append_triple (scheme rest : String) :
    (scheme ++ "://" ++ rest).data
      = scheme.data ++ ':' :: '/' :: '/' :: rest.data := by
  rw [String.data_append, String.data_append, List.append_assoc]
  rfl

theorem urlparseScheme_concat (scheme rest : String)
    (hne : scheme.data ≠ [])
    (hchars : ∀ c ∈ scheme.data, schemeChars c = true) :
    urlparseScheme (scheme ++ "://" ++ rest) = pyLower scheme := by
  have hp : ∀ c ∈ scheme.data, (c != ':') = true := by
    intro c hcmem
    have h1 := hchars c hcmem
    by_contra hne2
    simp only [bne_iff_ne, ne_eq, not_not] at hne2
    subst hne2
    exact absurd h1 (by decide)
  have htw := takeWhile_all_append (fun c => c != ':') scheme.data ':'
    ('/' :: '/' :: rest.data) hp (by decide)
  simp only [urlparseScheme, data_append_triple, htw]
  rw [if_pos]
  refine ⟨?_, hne, ?_⟩
  · simp only [List.length_append, List.length_cons]
    omega
  · simp only [List.all_eq_true]
    exact hchars

theorem soap_url_split (v : String → Except PyErr Bool)
    (scheme host : String) :
    ∃ rest : String, get_soap_url v scheme host = scheme ++ "://" ++ rest := by
  unfold get_soap_url
  split
  · refine ⟨"[" ++ host ++ "]", ?_⟩
    rw [show ("://[" : String) = "://" ++ "[" from rfl]
    simp only [← String.append_assoc]
  · exact ⟨host, rfl⟩

theorem mkWriteBaseUrl_split (v : String → Except PyErr Bool)
    (scheme host p dc ds : String) :
    ∃ rest : String,
      mkWriteBaseUrl v scheme host p dc ds = scheme ++ "://" ++ rest := by
  obtain ⟨r, hr⟩ := soap_url_split v scheme host
  refine ⟨r ++ "/folder/" ++ p ++ "?" ++ urlencode dc ds, ?_⟩
  unfold mkWriteBaseUrl
  rw [hr]
  simp only [← String.append_assoc]

/-- `strContains s sub`: `sub` occurs contiguously inside `s`. -/
def strContains (s sub : String) : Prop :=
  ∃ pre post : List Char, s.data = pre ++ sub.data ++ post

theorem contains_middle (a b c : String) : strContains (a ++ b ++ c) b :=
  ⟨a.data, c.data, by rw [String.data_append, String.data_append]⟩

theorem mkWriteBaseUrl_shape (v : String → Except PyErr Bool)
    (scheme host p dc ds : String) :
    mkWriteBaseUrl v scheme host p dc ds
      = (get_soap_url v scheme host ++ "/folder/") ++ p
        ++ ("?" ++ urlencode dc ds) := by
  unfold mkWriteBaseUrl
  simp only [← String.append_assoc]

theorem mkReadBaseUrl_shape (v : String → Except PyErr Bool)
    (scheme host p dc ds : String) :
    mkReadBaseUrl v scheme host p dc ds
      = (get_soap_url v scheme host ++ "/folder/") ++ pathname2url p
        ++ ("?" ++ urlencode dc ds) := by
  unfold mkReadBaseUrl
  simp only [← String.append_assoc]

theorem runReads_general (sizes : List Nat) (chunks : List String) :
    GlanceFileRead.runReads sizes chunks =
      chunks.take sizes.length ++
        List.replicate (sizes.length - chunks.length) "" := by
  induction sizes generalizing chunks with
  | nil => simp [GlanceFileRead.runReads]
  | cons n ns ih =>
    cases chunks with
    | nil =>
      simp [GlanceFileRead.runReads, GlanceFileRead.read, ih,
        List.replicate_succ]
    | cons c cs =>
      simp [GlanceFileRead.runReads, GlanceFileRead.read, ih,
        Nat.succ_sub_succ]

end ReadWriteUtil

namespace ReadWriteUtil

/-! ### Claim theorems (first group) -/

/-- Claim C10: a fresh stream has `get_eof = false`; after `set_eof b`,
`get_eof` returns exactly `b`, and `set_eof` leaves the transport
handle untouched. -/
theorem eof_flag_semantics {H : Type} (h : H) (s : VMwareHTTPFile H)
    (b : Bool) :
    (VMwareHTTPFile.init h).get_eof = false ∧
    (s.set_eof b).get_eof = b ∧
    (s.set_eof b).file_handle = s.file_handle :=
  ⟨rfl, rfl, rfl⟩

/-- Claim C1, counterexample: the EOF flag is not monotone.  After
`set_eof true` (so `get_eof` returns `true`), a later `set_eof false`
makes `get_eof` return `false` again. -/
theorem eof_not_monotone_cex :
    ((VMwareHTTPFile.init (0 : Nat)).set_eof true).get_eof = true ∧
    (((VMwareHTTPFile.init (0 : Nat)).set_eof true).set_eof false).get_eof
      = false :=
  ⟨rfl, rfl⟩

/-- Claim C1, amended: `get_eof` returns the argument of the most recent
`set_eof` call, and `false` for a fresh stream with no calls; the flag is
caller-settable in both directions, not monotone. -/
theorem eof_last_write_wins {H : Type} (h : H) (ops : List Bool) :
    (applyEofOps (VMwareHTTPFile.init h) ops).get_eof =
      (ops.getLast?).getD false :=
  applyEofOps_get_eof (VMwareHTTPFile.init h) ops

/-- Claim C5: the cookie header is `""` for an empty collection and
`name=value` of the first cookie for a non-empty one, regardless of the
cookies that follow. -/
theorem cookie_header_first_only :
    build_vim_cookie_headers [] = "" ∧
    ∀ (c : Cookie) (rest : List Cookie),
      build_vim_cookie_headers (c :: rest) = c.name ++ "=" ++ c.value ∧
      build_vim_cookie_headers (c :: rest) = build_vim_cookie_headers [c] :=
  ⟨rfl, fun _ _ => ⟨rfl, rfl⟩⟩

/-- Claim C2, counterexample: with a `Content-Length: 123` header,
`get_size` returns the raw string `"123"`, not the integer `123`. -/
theorem get_size_returns_string_cex :
    get_size [("Content-Length", "123")] = PyVal.str "123" ∧
    PyVal.str "123" ≠ PyVal.int 123 := by
  exact ⟨by decide, by decide⟩

/-- Claim C2, amended: `get_size` returns the integer `-1` when no
`Content-Length` header is present, and otherwise the header value as
the raw (unparsed) string. -/
theorem get_size_amended (headers : List (String × String)) :
    (headers.find? (fun kv => pyLower kv.1 == pyLower "Content-Length")
        = none →
      get_size headers = PyVal.int (-1)) ∧
    (∀ kv, headers.find? (fun kv => pyLower kv.1 == pyLower "Content-Length")
        = some kv →
      get_size headers = PyVal.str kv.2) := by
  constructor
  · intro hnone
    simp [get_size, headersGet, hnone]
  · intro kv hsome
    simp [get_size, headersGet, hsome]

/-- Claim C2, witness for the amended theorem. -/
theorem get_size_amended_witness :
    get_size [("X-Other", "1")] = PyVal.int (-1) ∧
    get_size [("content-length", "42")] = PyVal.str "42" :=
  ⟨(get_size_amended [("X-Other", "1")]).1 (by decide),
   (get_size_amended [("content-length", "42")]).2
     ("content-length", "42") (by decide)⟩

/-- Claim C6: reading `N + 1 + extra` times from a source of `N` chunks
(with arbitrary requested chunk sizes) yields the `N` chunks in order
followed by `1 + extra` empty results, never an error. -/
theorem glance_read_exhaustion (chunks : List String) (sizes : List Nat)
    (extra : Nat) (h : sizes.length = chunks.length + 1 + extra) :
    GlanceFileRead.runReads sizes chunks =
      chunks ++ List.replicate (1 + extra) "" := by
  rw [runReads_general, h]
  have h1 : chunks.length ≤ chunks.length + 1 + extra := by omega
  have h2 : chunks.length + 1 + extra - chunks.length = 1 + extra := by omega
  rw [List.take_of_length_le h1, h2]

/-- Claim C6, witness: two chunks, three reads of arbitrary sizes. -/
theorem glance_read_exhaustion_witness :
    ([5, 7, 9] : List Nat).length = (["aa", "bb"] : List String).length + 1 + 0 ∧
    GlanceFileRead.runReads [5, 7, 9] ["aa", "bb"] =
      ["aa", "bb"] ++ List.replicate (1 + 0) "" :=
  ⟨by decide, glance_read_exhaustion ["aa", "bb"] [5, 7, 9] 0 (by decide)⟩

/-- Claim C8: `VMwareHTTPReadFile.read` ignores the requested size and
returns at most `READ_CHUNKSIZE = 65536` bytes: exactly `READ_CHUNKSIZE`
while that many remain, and the short remainder otherwise. -/
theorem vmware_read_chunk (n : Nat) (buf : List Nat) :
    (VMwareHTTPReadFile.read n buf).1.length ≤ 65536 ∧
    VMwareHTTPReadFile.read n buf =
      VMwareHTTPReadFile.read READ_CHUNKSIZE buf ∧
    (READ_CHUNKSIZE ≤ buf.length →
      (VMwareHTTPReadFile.read n buf).1.length = READ_CHUNKSIZE) ∧
    (buf.length < READ_CHUNKSIZE →
      (VMwareHTTPReadFile.read n buf).1 = buf) := by
  refine ⟨?_, rfl, ?_, ?_⟩
  · simp only [VMwareHTTPReadFile.read, fileHandleRead, List.length_take,
      READ_CHUNKSIZE]
    omega
  · intro hge
    simp only [READ_CHUNKSIZE] at hge
    simp only [VMwareHTTPReadFile.read, fileHandleRead, List.length_take,
      READ_CHUNKSIZE]
    omega
  · intro hlt
    simp only [READ_CHUNKSIZE] at hlt
    simp only [VMwareHTTPReadFile.read, fileHandleRead, READ_CHUNKSIZE]
    exact List.take_of_length_le (by omega)

/-- Claim C8, witness: a short buffer is returned whole; a long buffer
is cut at exactly `READ_CHUNKSIZE`. -/
theorem vmware_read_chunk_witness :
    (VMwareHTTPReadFile.read 5 [1, 2, 3]).1 = [1, 2, 3] ∧
    (VMwareHTTPReadFile.read 0 (List.replicate 70000 0)).1.length
      = READ_CHUNKSIZE :=
  ⟨(vmware_read_chunk 5 [1, 2, 3]).2.2.2 (by decide),
   (vmware_read_chunk 0 (List.replicate 70000 0)).2.2.1
     (by rw [List.length_replicate]; decide)⟩

/-- Claim C3, counterexample: the read-stream constructor performs no
scheme validation at all — for scheme `ftp` it raises nothing and hands
the `ftp://` URL straight to the opener; the write-stream constructor
does fail before any network activity, but with `UnboundLocalError`
from the `else`-less dispatch, not a configuration error. -/
theorem read_no_scheme_check_cex :
    readConstruct sampleValidator "ftp" "host" "disk.vmdk" "dc1" "ds1"
      = ConstructOutcome.opensNetwork
          "ftp://host/folder/disk.vmdk?dcPath=dc1&dsName=ds1" ∧
    writeConstruct sampleValidator "ftp" "host" "disk.vmdk" "dc1" "ds1"
      = ConstructOutcome.raisesBeforeNetwork PyErr.unboundLocalError := by
  decide

/-- Claim C3, amended: for every alphabetic scheme other than
(case-insensitively) `http` and `https`, the write-stream constructor
raises `UnboundLocalError` before any network activity (the untaken
`if/elif` dispatch leaves `conn` unbound), while the read-stream
constructor raises nothing and passes the URL to the generic opener. -/
theorem scheme_dispatch_amended (v : String → Except PyErr Bool)
    (scheme host p dc ds : String)
    (hne : scheme.data ≠ [])
    (halpha : ∀ c ∈ scheme.data, c.isAlpha = true)
    (h1 : pyLower scheme ≠ "http") (h2 : pyLower scheme ≠ "https") :
    writeConstruct v scheme host p dc ds
      = ConstructOutcome.raisesBeforeNetwork PyErr.unboundLocalError ∧
    readConstruct v scheme host p dc ds
      = ConstructOutcome.opensNetwork (mkReadBaseUrl v scheme host p dc ds) := by
  constructor
  · have hchars : ∀ c ∈ scheme.data, schemeChars c = true := by
      intro c hcmem
      simp [schemeChars, halpha c hcmem]
    obtain ⟨r, hr⟩ := mkWriteBaseUrl_split v scheme host p dc ds
    simp only [writeConstruct, hr, urlparseScheme_concat scheme r hne hchars]
    rw [if_neg h1, if_neg h2]
  · rfl

/-- Claim C3, witness for the amended theorem at scheme `ftp`. -/
theorem scheme_dispatch_amended_witness :
    writeConstruct sampleValidator "ftp" "host" "a.vmdk" "dc1" "ds1"
      = ConstructOutcome.raisesBeforeNetwork PyErr.unboundLocalError ∧
    readConstruct sampleValidator "ftp" "host" "a.vmdk" "dc1" "ds1"
      = ConstructOutcome.opensNetwork
          (mkReadBaseUrl sampleValidator "ftp" "host" "a.vmdk" "dc1" "ds1") :=
  scheme_dispatch_amended sampleValidator "ftp" "host" "a.vmdk" "dc1" "ds1"
    (by decide) (by decide) (by decide) (by decide)

/-- Claim C4: the write-path URL contains the file path verbatim, the
read-path URL contains the `pathname2url`-escaped file path; in
particular, for `a b/c.vmdk` the escape is `a%20b/c.vmdk`, the write
URL contains the former and the read URL the latter. -/
theorem url_escaping_asymmetry (v : String → Except PyErr Bool)
    (scheme host dc ds p : String) :
    strContains (mkWriteBaseUrl v scheme host p dc ds) p ∧
    strContains (mkReadBaseUrl v scheme host p dc ds) (pathname2url p) ∧
    pathname2url "a b/c.vmdk" = "a%20b/c.vmdk" ∧
    strContains (mkWriteBaseUrl v scheme host "a b/c.vmdk" dc ds)
      "a b/c.vmdk" ∧
    strContains (mkReadBaseUrl v scheme host "a b/c.vmdk" dc ds)
      "a%20b/c.vmdk" := by
  have h3 : pathname2url "a b/c.vmdk" = "a%20b/c.vmdk" := by decide
  refine ⟨?_, ?_, h3, ?_, ?_⟩
  · rw [mkWriteBaseUrl_shape]
    exact contains_middle _ _ _
  · rw [mkReadBaseUrl_shape]
    exact contains_middle _ _ _
  · rw [mkWriteBaseUrl_shape]
    exact contains_middle _ _ _
  · rw [mkReadBaseUrl_shape, ← h3]
    exact contains_middle _ _ _

/-- Claim C7: `close` on the base (and read) stream and on the write
stream always returns normally — every internal failure is caught — and
a second `close` leaves exactly the state the first one produced. -/
theorem close_idempotent_no_raise (b : VMwareHTTPFile PyFileHandle)
    (w : VMwareHTTPFile HTTPConnectionState) :
    (∃ b2, VMwareHTTPFile.close b = Except.ok b2 ∧
      VMwareHTTPFile.close b2 = Except.ok b2) ∧
    (∃ w2, writeFileClose w = Except.ok w2 ∧
      writeFileClose w2 = Except.ok w2) := by
  constructor
  · rcases b with ⟨e, cl, fc⟩
    cases cl <;> cases fc <;> exact ⟨_, rfl, rfl⟩
  · rcases w with ⟨e, rr, cl, fg, fc⟩
    cases rr <;> cases cl <;> cases fg <;> cases fc <;> exact ⟨_, rfl, rfl⟩

/-- Claim C9: `get_soap_url` brackets the host exactly when the IPv6
validity oracle answers true; when it answers false, or raises — the
exception being suppressed — the host is used unbracketed. -/
theorem soap_url_ipv6 (v : String → Except PyErr Bool)
    (scheme host : String) :
    (v host = Except.ok true →
      get_soap_url v scheme host = scheme ++ "://[" ++ host ++ "]") ∧
    (v host = Except.ok false →
      get_soap_url v scheme host = scheme ++ "://" ++ host) ∧
    (∀ e, v host = Except.error e →
      get_soap_url v scheme host = scheme ++ "://" ++ host) := by
  refine ⟨fun h => ?_, fun h => ?_, fun e h => ?_⟩ <;>
    simp [get_soap_url, is_valid_ipv6, h]

/-- Claim C9, witness: a recognised IPv6 literal is bracketed, an IPv4
host is not, and a host on which the validity check raises is treated
as non-IPv6. -/
theorem soap_url_ipv6_witness :
    get_soap_url sampleValidator "https" "::1" = "https://[::1]" ∧
    get_soap_url sampleValidator "https" "10.0.0.1" = "https://10.0.0.1" ∧
    get_soap_url sampleValidator "https" "badhost" = "https://badhost" :=
  ⟨((soap_url_ipv6 sampleValidator "https" "::1").1 (by rfl)).trans
      (by decide),
   ((soap_url_ipv6 sampleValidator "https" "10.0.0.1").2.1 (by rfl)).trans
      (by decide),
   ((soap_url_ipv6 sampleValidator "https" "badhost").2.2
      PyErr.genericError (by rfl)).trans (by decide)⟩

end ReadWriteUtil
